import Mathlib

/-!
Verification of the recommendation scorer (`generateRecommendation` in
`app.js`) of the UPI Transaction Amount Recommendation System.

JavaScript number arithmetic is modelled over the exact rationals `ℚ`,
with a `nan` constructor adjoined to capture the `undefined`/`NaN`
propagation that occurs when a known user requests a category absent
from the averages table.  `Math.round x` is `⌊x + 1/2⌋` (halves round
toward positive infinity, matching JavaScript), and `Math.max` and
multiplication propagate `nan`.

The scorer in the source closes over the module-level constant
`appData`; we embed it as `generateRecommendationWith`, explicitly
parameterised by the two lookup tables, and `generateRecommendation`
is its application to the concrete `appData` tables.
-/

/-- A JavaScript number: either an exact rational or `NaN`. -/
inductive JsNum where
  | num (q : ℚ)
  | nan
deriving DecidableEq, Repr

/-- JavaScript multiplication: `NaN` propagates. -/
def JsNum.mul : JsNum → JsNum → JsNum
  | JsNum.num a, JsNum.num b => JsNum.num (a * b)
  | _, _ => JsNum.nan

/-- JavaScript `Math.round` on an exact value: floor of `x + 1/2`. -/
def jsRound (q : ℚ) : ℤ := ⌊q + 1 / 2⌋

/-- JavaScript `Math.round` lifted to `JsNum`: `NaN` propagates. -/
def mathRound : JsNum → JsNum
  | JsNum.num q => JsNum.num (jsRound q : ℚ)
  | JsNum.nan => JsNum.nan

/-- JavaScript `Math.max`: `NaN` propagates, otherwise the maximum. -/
def mathMax : JsNum → JsNum → JsNum
  | JsNum.num a, JsNum.num b => JsNum.num (max a b)
  | _, _ => JsNum.nan

/-- A user profile, as stored in `appData.userProfiles`. -/
structure UserProfile where
  avg_amount : ℚ
  cluster : ℕ
  cluster_name : String
  transactions : ℕ
  preferred_category : String
deriving DecidableEq, Repr

/-- The request object passed to `generateRecommendation`. -/
structure RecommendationRequest where
  userId : String
  category : String
  location : String
  paymentMethod : String
  hour : ℤ
deriving DecidableEq, Repr

/-- The result object returned by `generateRecommendation`. -/
structure RecommendationResult where
  amount : JsNum
  confidence : ℕ
  cluster : String
  reasoning : String
deriving DecidableEq, Repr

/-- The `appData.userProfiles` table from `app.js`. -/
def userProfiles : String → Option UserProfile
  | "USER_0001" => some ⟨1017, 1, "High-Value Users", 8, "Entertainment"⟩
  | "USER_0002" => some ⟨1004, 1, "High-Value Users", 8, "Healthcare"⟩
  | "USER_0003" => some ⟨850, 0, "Conservative Spenders", 6, "Groceries"⟩
  | "USER_0655" => some ⟨1360, 3, "Active Users", 12, "Food & Dining"⟩
  | "USER_0755" => some ⟨713, 2, "Frequent Small Transactions", 15, "Transportation"⟩
  | _ => none

/-- The `appData.categoryAverages` table from `app.js`. -/
def categoryAverages : String → Option ℚ
  | "Food & Dining" => some 255
  | "Transportation" => some 118
  | "Shopping" => some 842
  | "Bills & Utilities" => some 674
  | "Entertainment" => some 398
  | "Healthcare" => some 823
  | "Education" => some 1987
  | "Groceries" => some 354
  | "Fuel" => some 512
  | "Transfer to Friends" => some 1634
  | _ => none

/-- The time-of-day multiplier computed inside the known-user path:
band [6,10] gives 0.8, band [11,14] gives 1.2, band [18,22] gives 1.1,
and every other hour value gives 0.7. -/
def hourMultiplier (hour : ℤ) : ℚ :=
  if 6 ≤ hour ∧ hour ≤ 10 then 0.8
  else if 11 ≤ hour ∧ hour ≤ 14 then 1.2
  else if 18 ≤ hour ∧ hour ≤ 22 then 1.1
  else 0.7

/-- The scorer `generateRecommendation` of `app.js`, parameterised by the
two lookup tables it reads.  The unknown-user fallback amount models the
JavaScript expression `categoryAvg || 500`, under which a present-but-zero
average is falsy and also yields 500. -/
def generateRecommendationWith (profiles : String → Option UserProfile)
    (catAvgs : String → Option ℚ)
    (params : RecommendationRequest) : RecommendationResult :=
  match profiles params.userId with
  | none =>
      { amount := JsNum.num
          (match catAvgs params.category with
            | some v => if v = 0 then 500 else v
            | none => 500)
        confidence := 75
        cluster := "Unknown"
        reasoning := "Based on category average and system patterns" }
  | some userProfile =>
      let baseAmount : JsNum := JsNum.num userProfile.avg_amount
      let categoryMultiplier : JsNum :=
        match catAvgs params.category with
        | some v => JsNum.num (v / 500)
        | none => JsNum.nan
      let hourMult : JsNum := JsNum.num (hourMultiplier params.hour)
      let recommendedAmount : JsNum :=
        mathRound (JsNum.mul (JsNum.mul baseAmount categoryMultiplier) hourMult)
      let confidence1 : ℕ :=
        if userProfile.preferred_category = params.category then 70 + 20 else 70
      let confidence2 : ℕ :=
        if userProfile.transactions > 10 then confidence1 + 10 else confidence1
      { amount := mathMax recommendedAmount (JsNum.num 50)
        confidence := min confidence2 95
        cluster := userProfile.cluster_name
        reasoning := "Based on " ++ userProfile.cluster_name ++ " spending pattern, "
          ++ params.category ++ " preferences, and transaction time analysis" }

/-- The scorer applied to the concrete `appData` tables, as in `app.js`. -/
def generateRecommendation (params : RecommendationRequest) : RecommendationResult :=
  generateRecommendationWith userProfiles categoryAverages params

/-- Every value stored in the concrete category-averages table is nonzero. -/
lemma categoryAverages_ne_zero (c : String) (a : ℚ)
    (h : categoryAverages c = some a) : a ≠ 0 := by
  unfold categoryAverages at h
  split at h <;> simp_all <;> norm_num [← h]

/-- Helper: the amount returned on the known-user path with a present
category, in closed form. -/
lemma amount_eq_of_known (profiles : String → Option UserProfile)
    (catAvgs : String → Option ℚ) (params : RecommendationRequest)
    (p : UserProfile) (a : ℚ)
    (hp : profiles params.userId = some p)
    (ha : catAvgs params.category = some a) :
    (generateRecommendationWith profiles catAvgs params).amount =
      JsNum.num (max ((jsRound (p.avg_amount * (a / 500) * hourMultiplier params.hour) : ℤ) : ℚ) 50) := by
  simp [generateRecommendationWith, hp, ha, mathRound, JsNum.mul, mathMax]

/-- Helper: the confidence returned on the known-user path, in closed form. -/
lemma confidence_eq_of_known (profiles : String → Option UserProfile)
    (catAvgs : String → Option ℚ) (params : RecommendationRequest)
    (p : UserProfile)
    (hp : profiles params.userId = some p) :
    (generateRecommendationWith profiles catAvgs params).confidence =
      min (70 + (if p.preferred_category = params.category then 20 else 0)
             + (if p.transactions > 10 then 10 else 0)) 95 := by
  simp only [generateRecommendationWith, hp]
  split_ifs <;> rfl

/-- C1: for every request whose userId is present in the profiles table and
whose category is present in the categoryAverages table, the scorer returns
amount = max(round(profile.avgAmount * (categoryAverages[category] / 500)
* hourMultiplier), 50), where the hour multiplier depends only on the
request's hour. -/
theorem known_user_amount_formula (params : RecommendationRequest)
    (p : UserProfile) (a : ℚ)
    (hp : userProfiles params.userId = some p)
    (ha : categoryAverages params.category = some a) :
    (generateRecommendation params).amount =
      JsNum.num (max ((jsRound (p.avg_amount * (a / 500) * hourMultiplier params.hour) : ℤ) : ℚ) 50) :=
  amount_eq_of_known userProfiles categoryAverages params p a hp ha

/-- Witness for C1 at USER_0001, category Shopping, hour 13. -/
theorem known_user_amount_formula_witness :
    (generateRecommendation ⟨"USER_0001", "Shopping", "Mumbai", "GPay", 13⟩).amount =
      JsNum.num (max ((jsRound ((1017 : ℚ) * (842 / 500) * hourMultiplier 13) : ℤ) : ℚ) 50) :=
  known_user_amount_formula ⟨"USER_0001", "Shopping", "Mumbai", "GPay", 13⟩
    ⟨1017, 1, "High-Value Users", 8, "Entertainment"⟩ 842 rfl rfl

/-- C2: for every request with a known userId, the confidence is
70, plus 20 on an exact preferred-category match, plus 10 when the
profile's transaction count strictly exceeds 10, capped at 95; hence it
is always one of 70, 80, 90, 95. -/
theorem known_user_confidence (params : RecommendationRequest)
    (p : UserProfile)
    (hp : userProfiles params.userId = some p) :
    (generateRecommendation params).confidence =
      min (70 + (if p.preferred_category = params.category then 20 else 0)
             + (if p.transactions > 10 then 10 else 0)) 95 ∧
    ((generateRecommendation params).confidence = 70 ∨
     (generateRecommendation params).confidence = 80 ∨
     (generateRecommendation params).confidence = 90 ∨
     (generateRecommendation params).confidence = 95) := by
  have h : (generateRecommendation params).confidence =
      min (70 + (if p.preferred_category = params.category then 20 else 0)
             + (if p.transactions > 10 then 10 else 0)) 95 :=
    confidence_eq_of_known userProfiles categoryAverages params p hp
  refine ⟨h, ?_⟩
  rw [h]
  split_ifs <;> simp

/-- Witness for C2 at USER_0755 (15 transactions, preferred category
Transportation) requesting Transportation: confidence 95. -/
theorem known_user_confidence_witness :
    (generateRecommendation ⟨"USER_0755", "Transportation", "Delhi", "PhonePe", 9⟩).confidence = 95 := by
  have h := known_user_confidence ⟨"USER_0755", "Transportation", "Delhi", "PhonePe", 9⟩
    ⟨713, 2, "Frequent Small Transactions", 15, "Transportation"⟩ rfl
  rw [h.1]
  decide

/-- C3: for every request whose userId is absent from the profiles table,
the scorer returns amount = categoryAverages[category] when the category is
present in the table and 500 otherwise, confidence exactly 75, and cluster
exactly the string Unknown. -/
theorem unknown_user_result (params : RecommendationRequest)
    (hp : userProfiles params.userId = none) :
    (∀ a : ℚ, categoryAverages params.category = some a →
        (generateRecommendation params).amount = JsNum.num a) ∧
    (categoryAverages params.category = none →
        (generateRecommendation params).amount = JsNum.num 500) ∧
    (generateRecommendation params).confidence = 75 ∧
    (generateRecommendation params).cluster = "Unknown" := by
  refine ⟨?_, ?_, ?_, ?_⟩
  · intro a ha
    have hne := categoryAverages_ne_zero params.category a ha
    simp [generateRecommendation, generateRecommendationWith, hp, ha, hne]
  · intro ha
    simp [generateRecommendation, generateRecommendationWith, hp, ha]
  · simp [generateRecommendation, generateRecommendationWith, hp]
  · simp [generateRecommendation, generateRecommendationWith, hp]

/-- Witness for C3: unknown user id, category Shopping (average 842) gives
amount 842, confidence 75, cluster Unknown. -/
theorem unknown_user_result_witness :
    (generateRecommendation ⟨"USER_9999", "Shopping", "Mumbai", "GPay", 13⟩).amount = JsNum.num 842 ∧
    (generateRecommendation ⟨"USER_9999", "Shopping", "Mumbai", "GPay", 13⟩).confidence = 75 ∧
    (generateRecommendation ⟨"USER_9999", "Shopping", "Mumbai", "GPay", 13⟩).cluster = "Unknown" :=
  ⟨(unknown_user_result ⟨"USER_9999", "Shopping", "Mumbai", "GPay", 13⟩ rfl).1 842 rfl,
   (unknown_user_result ⟨"USER_9999", "Shopping", "Mumbai", "GPay", 13⟩ rfl).2.2.1,
   (unknown_user_result ⟨"USER_9999", "Shopping", "Mumbai", "GPay", 13⟩ rfl).2.2.2⟩

/-- C4: the hour multiplier is 0.8 on [6,10], 1.2 on [11,14], 1.1 on
[18,22] (bands inclusive on both ends), and 0.7 for every other hour
value, including hours outside the range 0 to 23. -/
theorem hourMultiplier_bands (h : ℤ) :
    ((6 ≤ h ∧ h ≤ 10) → hourMultiplier h = 0.8) ∧
    ((11 ≤ h ∧ h ≤ 14) → hourMultiplier h = 1.2) ∧
    ((18 ≤ h ∧ h ≤ 22) → hourMultiplier h = 1.1) ∧
    (¬(6 ≤ h ∧ h ≤ 10) → ¬(11 ≤ h ∧ h ≤ 14) → ¬(18 ≤ h ∧ h ≤ 22) →
        hourMultiplier h = 0.7) := by
  refine ⟨?_, ?_, ?_, ?_⟩ <;> intros <;> unfold hourMultiplier <;>
    split_ifs <;> first | rfl | omega

/-- Witness for C4 at hours 8, 13, 20, 16 and the out-of-range hour 25. -/
theorem hourMultiplier_bands_witness :
    hourMultiplier 8 = 0.8 ∧ hourMultiplier 13 = 1.2 ∧
    hourMultiplier 20 = 1.1 ∧ hourMultiplier 16 = 0.7 ∧ hourMultiplier 25 = 0.7 :=
  ⟨(hourMultiplier_bands 8).1 (by decide),
   (hourMultiplier_bands 13).2.1 (by decide),
   (hourMultiplier_bands 20).2.2.1 (by decide),
   (hourMultiplier_bands 16).2.2.2 (by decide) (by decide) (by decide),
   (hourMultiplier_bands 25).2.2.2 (by decide) (by decide) (by decide)⟩

/-- C5: a known user whose profile has avgAmount 1017, transactions 8 and
preferred category Entertainment, requesting at hour 13 a category whose
table average is 398 and which is not the preferred category, obtains
categoryMultiplier 0.796, hourMultiplier 1.2, amount
round(1017 * 0.796 * 1.2) = 971 and confidence 70. -/
theorem scenario_entertainment_profile (profiles : String → Option UserProfile)
    (catAvgs : String → Option ℚ) (params : RecommendationRequest)
    (p : UserProfile)
    (hp : profiles params.userId = some p)
    (havg : p.avg_amount = 1017) (htx : p.transactions = 8)
    (hpref : p.preferred_category = "Entertainment")
    (hcat : catAvgs params.category = some 398)
    (hne : params.category ≠ "Entertainment")
    (hhour : params.hour = 13) :
    (398 : ℚ) / 500 = 0.796 ∧
    hourMultiplier 13 = 1.2 ∧
    (generateRecommendationWith profiles catAvgs params).amount = JsNum.num 971 ∧
    (generateRecommendationWith profiles catAvgs params).confidence = 70 := by
  refine ⟨by norm_num, by norm_num [hourMultiplier], ?_, ?_⟩
  · rw [amount_eq_of_known profiles catAvgs params p 398 hp hcat, havg, hhour]
    norm_num [jsRound, hourMultiplier]
  · rw [confidence_eq_of_known profiles catAvgs params p hp, hpref, htx]
    rw [if_neg (fun hEq => hne hEq.symm)]
    norm_num

/-- Profile table for the C5 witness: one user with the scenario profile. -/
def profilesScenario : String → Option UserProfile
  | "U1" => some ⟨1017, 1, "High-Value Users", 8, "Entertainment"⟩
  | _ => none

/-- Category table for the C5 witness: one non-Entertainment category with
average 398. -/
def catAvgsScenario : String → Option ℚ
  | "Movies" => some 398
  | _ => none

/-- Witness for C5: the scenario instantiated with concrete tables. -/
theorem scenario_entertainment_profile_witness :
    (generateRecommendationWith profilesScenario catAvgsScenario
        ⟨"U1", "Movies", "Mumbai", "GPay", 13⟩).amount = JsNum.num 971 ∧
    (generateRecommendationWith profilesScenario catAvgsScenario
        ⟨"U1", "Movies", "Mumbai", "GPay", 13⟩).confidence = 70 := by
  have h := scenario_entertainment_profile profilesScenario catAvgsScenario
    ⟨"U1", "Movies", "Mumbai", "GPay", 13⟩
    ⟨1017, 1, "High-Value Users", 8, "Entertainment"⟩
    rfl rfl rfl rfl rfl (by decide) rfl
  exact ⟨h.2.2.1, h.2.2.2⟩

/-- C6: for every request with a known userId whose category is absent from
the categoryAverages table, the undefined lookup propagates through the
multiplication, rounding and minimum clamp, so the returned amount is NaN
rather than an error being raised. -/
theorem known_user_missing_category_nan (params : RecommendationRequest)
    (p : UserProfile)
    (hp : userProfiles params.userId = some p)
    (ha : categoryAverages params.category = none) :
    (generateRecommendation params).amount = JsNum.nan := by
  simp [generateRecommendation, generateRecommendationWith, hp, ha,
    mathRound, JsNum.mul, mathMax]

/-- Witness for C6: USER_0001 requesting the absent category Rent. -/
theorem known_user_missing_category_nan_witness :
    (generateRecommendation ⟨"USER_0001", "Rent", "Mumbai", "GPay", 13⟩).amount = JsNum.nan :=
  known_user_missing_category_nan ⟨"USER_0001", "Rent", "Mumbai", "GPay", 13⟩
    ⟨1017, 1, "High-Value Users", 8, "Entertainment"⟩ rfl rfl

/-- C7: for every request with a known userId and a category present in the
categoryAverages table, the returned amount is a number at least 50. -/
theorem known_user_amount_at_least_50 (params : RecommendationRequest)
    (p : UserProfile) (a : ℚ)
    (hp : userProfiles params.userId = some p)
    (ha : categoryAverages params.category = some a) :
    ∃ q : ℚ, (generateRecommendation params).amount = JsNum.num q ∧ 50 ≤ q :=
  ⟨_, amount_eq_of_known userProfiles categoryAverages params p a hp ha,
    le_max_right _ _⟩

/-- Witness for C7 at USER_0003, category Transportation, hour 2. -/
theorem known_user_amount_at_least_50_witness :
    ∃ q : ℚ, (generateRecommendation ⟨"USER_0003", "Transportation", "Pune", "Paytm", 2⟩).amount =
        JsNum.num q ∧ 50 ≤ q :=
  known_user_amount_at_least_50 ⟨"USER_0003", "Transportation", "Pune", "Paytm", 2⟩
    ⟨850, 0, "Conservative Spenders", 6, "Groceries"⟩ 118 rfl rfl

/-- C8: the scorer is deterministic and stateless — it is a pure function
of the request and the immutable lookup tables, so two calls with identical
inputs return identical results; no table or other state is mutated, as the
embedding is a total function over immutable values. -/
theorem scorer_deterministic (r₁ r₂ : RecommendationRequest) (h : r₁ = r₂) :
    generateRecommendation r₁ = generateRecommendation r₂ := by rw [h]

/-- Witness for C8 at a concrete request. -/
theorem scorer_deterministic_witness :
    generateRecommendation ⟨"USER_0002", "Healthcare", "Chennai", "GPay", 19⟩ =
      generateRecommendation ⟨"USER_0002", "Healthcare", "Chennai", "GPay", 19⟩ :=
  scorer_deterministic ⟨"USER_0002", "Healthcare", "Chennai", "GPay", 19⟩
    ⟨"USER_0002", "Healthcare", "Chennai", "GPay", 19⟩ rfl

/-- Helper: the scorer reads only the userId, category and hour fields of
the request; the location and paymentMethod fields can be replaced by any
values without changing the result. -/
lemma generateRecommendationWith_eq_core (profiles : String → Option UserProfile)
    (catAvgs : String → Option ℚ) (r : RecommendationRequest) :
    generateRecommendationWith profiles catAvgs r =
      generateRecommendationWith profiles catAvgs ⟨r.userId, r.category, "", "", r.hour⟩ := rfl

/-- C9: two requests agreeing on userId, category and hour but differing
arbitrarily in location and paymentMethod produce equal results — amount,
confidence, cluster and reasoning all identical. -/
theorem scorer_ignores_location_payment (r₁ r₂ : RecommendationRequest)
    (hu : r₁.userId = r₂.userId) (hc : r₁.category = r₂.category)
    (hh : r₁.hour = r₂.hour) :
    generateRecommendation r₁ = generateRecommendation r₂ :=
  calc generateRecommendation r₁
      = generateRecommendationWith userProfiles categoryAverages
          ⟨r₁.userId, r₁.category, "", "", r₁.hour⟩ :=
        generateRecommendationWith_eq_core userProfiles categoryAverages r₁
    _ = generateRecommendationWith userProfiles categoryAverages
          ⟨r₂.userId, r₂.category, "", "", r₂.hour⟩ := by rw [hu, hc, hh]
    _ = generateRecommendation r₂ :=
        (generateRecommendationWith_eq_core userProfiles categoryAverages r₂).symm

/-- Witness for C9: two requests differing only in location and payment
method give the same result. -/
theorem scorer_ignores_location_payment_witness :
    generateRecommendation ⟨"USER_0655", "Fuel", "Mumbai", "GPay", 8⟩ =
      generateRecommendation ⟨"USER_0655", "Fuel", "Kolkata", "Paytm", 8⟩ :=
  scorer_ignores_location_payment ⟨"USER_0655", "Fuel", "Mumbai", "GPay", 8⟩
    ⟨"USER_0655", "Fuel", "Kolkata", "Paytm", 8⟩ rfl rfl rfl

/-- C10: on both paths and for any lookup tables, the returned confidence
lies in the interval [70, 95]: the known-user path starts at 70 and only
adds bonuses before capping at 95, and the unknown-user path returns the
constant 75, so the lower bound 0 is never reached. -/
theorem confidence_in_bounds (profiles : String → Option UserProfile)
    (catAvgs : String → Option ℚ) (r : RecommendationRequest) :
    70 ≤ (generateRecommendationWith profiles catAvgs r).confidence ∧
    (generateRecommendationWith profiles catAvgs r).confidence ≤ 95 := by
  cases hup : profiles r.userId with
  | none => simp [generateRecommendationWith, hup]
  | some p =>
    rw [confidence_eq_of_known profiles catAvgs r p hup]
    split_ifs <;> refine ⟨?_, min_le_right _ _⟩ <;> decide
